import Mathlib

/-!
Verification of the nispor network-introspection library (Rust sources under
`src/lib/ifaces/`): a shallow embedding, in Lean 4, of the link-message
reducer (`iface.rs`), the SR-IOV per-VF attribute decoder (`sriov.rs`), the
veth tidy-up pass (`veth.rs`), and the MAC-change operation planner, together
with theorems about the claims of the specification.

Conventions of the embedding:
* Rust `u16`/`u32`/`u64` values are `Nat`s; wrap-around does not occur in the
  modelled code paths (all arithmetic is comparison, masking, div and mod).
* Byte buffers (`&[u8]`) are `List Nat` with each element a byte value.
* Fallible Rust functions returning `Result<T, NisporError>` become
  `Except NisporError T`.
* The filesystem (sysfs reads in `sriov.rs`) is an explicit oracle
  `String → Option (List String)`: a directory path maps to its entries, or
  `none` when the directory is missing/unreadable.
* `HashMap<String, Iface>` becomes a `List Iface` (the map's values);
  auxiliary `HashMap`s built via `insert` are association lists where a
  later insert shadows an earlier one, hence lookups search the reversed
  list.
-/

namespace Nispor

/-- Modelled from the spec (§7): the error taxonomy. The `NisporError` type
itself lives in `error.rs`, which is not among the given sources; the kinds
are exactly the five of the specification. -/
inductive NisporErrorKind
  | ProtocolParse
  | SysCall
  | Conflict
  | NotFound
  | Bug
  deriving DecidableEq, Repr

/-- Modelled from the spec (§7): an error is a kind plus a descriptive
message. -/
structure NisporError where
  kind : NisporErrorKind
  msg : String
  deriving DecidableEq, Repr

/-- `NisporError::bug(msg)` constructor used throughout the sources. -/
def NisporError.bug (msg : String) : NisporError :=
  { kind := NisporErrorKind.Bug, msg := msg }

/-- Modelled from the spec (§7): netlink attribute decode errors
(`DecodeError` converted via `?`) are ProtocolParse-kind errors. -/
def NisporError.protocolParse (msg : String) : NisporError :=
  { kind := NisporErrorKind.ProtocolParse, msg := msg }

/-! ## Data model: `IfaceType`, `IfaceState`, `IfaceFlags`, `ControllerType`
(from `iface.rs`), veth and SR-IOV records (from `veth.rs`, `sriov.rs`). -/

/-- `iface.rs`: `pub enum IfaceType`. -/
inductive IfaceType
  | Bond
  | Veth
  | Bridge
  | Vlan
  | Dummy
  | Vxlan
  | Loopback
  | Ethernet
  | Infiniband
  | Vrf
  | Tun
  | MacVlan
  | MacVtap
  | OpenvSwitch
  | Ipoib
  | Unknown
  | Other (s : String)
  deriving DecidableEq, Repr

/-- `iface.rs`: `impl Default for IfaceType`. -/
def IfaceType.default : IfaceType := IfaceType.Unknown

/-- `iface.rs`: `pub enum IfaceState`. -/
inductive IfaceState
  | Up
  | Dormant
  | Down
  | LowerLayerDown
  | Absent
  | Other (s : String)
  | Unknown
  deriving DecidableEq, Repr

/-- `iface.rs`: `impl Default for IfaceState`. -/
def IfaceState.default : IfaceState := IfaceState.Unknown

/-- `iface.rs`: `pub enum IfaceFlags`. -/
inductive IfaceFlags
  | AllMulti
  | AutoMedia
  | Broadcast
  | Debug
  | Dormant
  | Loopback
  | LowerUp
  | Controller
  | Multicast
  | NoArp
  | PoinToPoint
  | Portsel
  | Promisc
  | Running
  | Subordinate
  | Up
  | Other (v : Nat)
  | Unknown
  deriving DecidableEq, Repr

/-- `iface.rs`: `pub enum ControllerType`. -/
inductive ControllerType
  | Bond
  | Bridge
  | Vrf
  | OpenvSwitch
  | Other (s : String)
  | Unknown
  deriving DecidableEq, Repr

/-- `iface.rs`: `impl From<&str> for ControllerType`. -/
def ControllerType.ofStr (s : String) : ControllerType :=
  if s = "bond" then ControllerType.Bond
  else if s = "bridge" then ControllerType.Bridge
  else if s = "vrf" then ControllerType.Vrf
  else if s = "openvswitch" then ControllerType.OpenvSwitch
  else ControllerType.Other s

/-- `veth.rs`: `pub struct VethInfo`. `peer` is the interface name of the
peer, or the peer's interface index number rendered as a string when the
peer lives in another namespace. -/
structure VethInfo where
  peer : String
  deriving DecidableEq, Repr

/-- `sriov.rs`: `pub enum VfLinkState`. -/
inductive VfLinkState
  | Auto
  | Enable
  | Disable
  | Other (v : Nat)
  | Unknown
  deriving DecidableEq, Repr

/-- `sriov.rs`: `IFLA_VF_LINK_STATE_*` constants and
`impl From<u32> for VfLinkState`. -/
def VfLinkState.ofNat (d : Nat) : VfLinkState :=
  if d = 0 then VfLinkState.Auto
  else if d = 1 then VfLinkState.Enable
  else if d = 2 then VfLinkState.Disable
  else VfLinkState.Other d

/-- `sriov.rs`: `pub struct VfState` (per-VF statistics, all u64). -/
structure VfState where
  rx_packets : Nat
  tx_packets : Nat
  rx_bytes : Nat
  tx_bytes : Nat
  broadcast : Nat
  multicast : Nat
  rx_dropped : Nat
  tx_dropped : Nat
  deriving DecidableEq, Repr

/-- `sriov.rs`: `VfState::default()`. -/
def VfState.default : VfState :=
  { rx_packets := 0, tx_packets := 0, rx_bytes := 0, tx_bytes := 0,
    broadcast := 0, multicast := 0, rx_dropped := 0, tx_dropped := 0 }

/-- `sriov.rs`: `pub struct VfInfo`. -/
structure VfInfo where
  iface_name : Option String
  pf_name : Option String
  id : Nat
  mac : String
  broadcast : String
  vlan_id : Nat
  qos : Nat
  tx_rate : Nat
  spoof_check : Bool
  link_state : VfLinkState
  min_tx_rate : Nat
  max_tx_rate : Nat
  query_rss : Bool
  state : VfState
  trust : Bool
  ib_node_guid : Option String
  ib_port_guid : Option String
  deriving DecidableEq, Repr

/-- `sriov.rs`: `VfInfo::default()`. -/
def VfInfo.default : VfInfo :=
  { iface_name := none, pf_name := none, id := 0, mac := "", broadcast := "",
    vlan_id := 0, qos := 0, tx_rate := 0, spoof_check := false,
    link_state := VfLinkState.Unknown, min_tx_rate := 0, max_tx_rate := 0,
    query_rss := false, state := VfState.default, trust := false,
    ib_node_guid := none, ib_port_guid := none }

/-- `sriov.rs`: `pub struct SriovInfo`. -/
structure SriovInfo where
  vfs : List VfInfo
  deriving DecidableEq, Repr

/-- `iface.rs`: `pub struct Iface`, restricted to the fields the verified
claims observe. Omitted fields (`ipv4`, `ipv6`, `ethtool`, `bond`, `bridge`,
`tun`, `vlan`, `vxlan`, `vrf`, `mac_vlan`, `mac_vtap`, `ipoib`, `mptcp` and
the subordinate records) are filled only by decoders living in source files
that are not among the given sources. -/
structure Iface where
  name : String
  index : Nat
  iface_type : IfaceType
  state : IfaceState
  mtu : Int
  min_mtu : Option Int
  max_mtu : Option Int
  flags : List IfaceFlags
  mac_address : String
  permanent_mac_address : String
  controller : Option String
  controller_type : Option ControllerType
  link_netnsid : Option Int
  veth : Option VethInfo
  sriov : Option SriovInfo
  sriov_vf : Option VfInfo
  deriving DecidableEq, Repr

/-- `iface.rs`: `Iface::default()` (derived `Default`). -/
def Iface.default : Iface :=
  { name := "", index := 0, iface_type := IfaceType.default,
    state := IfaceState.default, mtu := 0, min_mtu := none, max_mtu := none,
    flags := [], mac_address := "", permanent_mac_address := "",
    controller := none, controller_type := none, link_netnsid := none,
    veth := none, sriov := none, sriov_vf := none }

/-! ## Constants (from `iface.rs`, `sriov.rs`, `mac.rs` and the
`netlink_packet_route` crate; the ARPHRD/IFF values are the standard Linux
ones re-exported by the crate). -/

def ARPHRD_ETHER : Nat := 1
def ARPHRD_INFINIBAND : Nat := 32
def ARPHRD_LOOPBACK : Nat := 772

def IFF_UP : Nat := 0x1
def IFF_BROADCAST : Nat := 0x2
def IFF_DEBUG : Nat := 0x4
def IFF_LOOPBACK : Nat := 0x8
def IFF_POINTOPOINT : Nat := 0x10
def IFF_RUNNING : Nat := 0x40
def IFF_NOARP : Nat := 0x80
def IFF_PROMISC : Nat := 0x100
def IFF_ALLMULTI : Nat := 0x200
def IFF_MASTER : Nat := 0x400
def IFF_MULTICAST : Nat := 0x1000
def IFF_PORTSEL : Nat := 0x2000
def IFF_AUTOMEDIA : Nat := 0x4000
def IFF_LOWER_UP : Nat := 0x10000
def IFF_DORMANT : Nat := 0x20000

/-- `iface.rs`: `const IFF_PORT: u32 = 0x800;` (the IFF_SLAVE bit). -/
def IFF_PORT : Nat := 0x800

def IFLA_VF_MAC : Nat := 1
def IFLA_VF_VLAN : Nat := 2
def IFLA_VF_TX_RATE : Nat := 3
def IFLA_VF_SPOOFCHK : Nat := 4
def IFLA_VF_LINK_STATE : Nat := 5
def IFLA_VF_RATE : Nat := 6
def IFLA_VF_RSS_QUERY_EN : Nat := 7
def IFLA_VF_STATS : Nat := 8
def IFLA_VF_TRUST : Nat := 9
def IFLA_VF_IB_NODE_GUID : Nat := 10
def IFLA_VF_IB_PORT_GUID : Nat := 11
def IFLA_VF_VLAN_LIST : Nat := 12
def IFLA_VF_BROADCAST : Nat := 13

def IFLA_VF_STATS_RX_PACKETS : Nat := 0
def IFLA_VF_STATS_TX_PACKETS : Nat := 1
def IFLA_VF_STATS_RX_BYTES : Nat := 2
def IFLA_VF_STATS_TX_BYTES : Nat := 3
def IFLA_VF_STATS_BROADCAST : Nat := 4
def IFLA_VF_STATS_MULTICAST : Nat := 5
def IFLA_VF_STATS_RX_DROPPED : Nat := 7
def IFLA_VF_STATS_TX_DROPPED : Nat := 8

/-- `mac.rs` (not among the given sources): `ETH_ALEN`. -/
def ETH_ALEN : Nat := 6

/-- `mac.rs` (not among the given sources): `INFINIBAND_ALEN`. -/
def INFINIBAND_ALEN : Nat := 20

/-- `sriov.rs`: `const MAX_ADDR_LEN: usize = 32;`. -/
def MAX_ADDR_LEN : Nat := 32

/-- u32::MAX, the all-ones sentinel. -/
def U32_MAX : Nat := 4294967295

/-! ## Byte-level helpers: little-endian integers and hex rendering. -/

/-- Little-endian interpretation of a byte list. -/
def leBytesToNat (l : List Nat) : Nat :=
  l.foldr (fun b acc => b + 256 * acc) 0

/-- The four little-endian bytes of a value below 2^32. -/
def le32Bytes (d : Nat) : List Nat :=
  [d % 256, d / 256 % 256, d / 65536 % 256, d / 16777216 % 256]

/-- One lowercase hex digit. -/
def hexDigit (n : Nat) : Char :=
  if n < 10 then Char.ofNat (48 + n) else Char.ofNat (87 + n)

/-- Two lowercase hex digits of a byte. -/
def byteToHex (b : Nat) : String :=
  String.mk [hexDigit (b % 256 / 16), hexDigit (b % 16)]

/-- Lowercase colon-separated hex rendering of a byte list. -/
def colonHex (l : List Nat) : String :=
  String.intercalate ":" (l.map byteToHex)

/-- One uppercase hex digit. -/
def hexDigitUpper (n : Nat) : Char :=
  if n < 10 then Char.ofNat (48 + n) else Char.ofNat (55 + n)

/-- Digit accumulator of `toHexUpper`. -/
def toHexUpperGo : Nat → List Char → List Char
  | 0, acc => acc
  | n + 1, acc =>
    toHexUpperGo ((n + 1) / 16) (hexDigitUpper ((n + 1) % 16) :: acc)
  termination_by n _ => n
  decreasing_by
    omega

/-- Uppercase hex rendering of a number without leading zeros (Rust
`format!("{:X}", v)`). -/
def toHexUpper (n : Nat) : String :=
  if n = 0 then "0" else String.mk (toHexUpperGo n [])

/-- Modelled from the spec (§4.1, §7): `parse_as_u32` from `netlink.rs`,
which is not among the given sources. A hard (Bug-kind) error is returned
when the field's length is wrong for its declared type; otherwise the first
four bytes are read in native (little) endianness. -/
def parse_as_u32 (data : List Nat) : Except NisporError Nat :=
  if 4 ≤ data.length then Except.ok (leBytesToNat (data.take 4))
  else Except.error (NisporError.bug "wrong u32 binary data")

/-- Modelled from the spec (§4.1, §7): `parse_as_u64` from `netlink.rs`,
which is not among the given sources. -/
def parse_as_u64 (data : List Nat) : Except NisporError Nat :=
  if 8 ≤ data.length then Except.ok (leBytesToNat (data.take 8))
  else Except.error (NisporError.bug "wrong u64 binary data")

/-- Modelled from the spec (§4.1): `parse_as_mac` from `mac.rs`, which is not
among the given sources. Renders the first `macLen` bytes as lowercase
colon-separated hex; a hard (Bug-kind) error is returned when the data is
shorter than the requested length. -/
def parse_as_mac (macLen : Nat) (data : List Nat) :
    Except NisporError String :=
  if macLen ≤ data.length then Except.ok (colonHex (data.take macLen))
  else Except.error (NisporError.bug "Invalid MAC address length")

/-! ## Netlink attribute stream (`netlink_packet_utils::nla::NlasIterator`).

Each attribute is a 2-byte little-endian total length (header included),
a 2-byte little-endian kind (the two topmost bits — nested / net-byteorder —
are masked off by `kind()`), and `length - 4` payload bytes; the iterator
advances by the length rounded up to a multiple of four. The Rust iterator
is lazy; the model parses the whole stream eagerly, which agrees with the
lazy iterator whenever the stream is well-formed (and still returns an
error, possibly an earlier one, whenever the Rust side does). -/

/-- A parsed raw netlink attribute: kind and payload bytes. -/
structure RawNla where
  kind : Nat
  value : List Nat
  deriving DecidableEq, Repr

/-- Round up to a multiple of four (`nla_align`). -/
def align4 (n : Nat) : Nat :=
  (n + 3) / 4 * 4

/-- The attribute stream parser (`NlasIterator` plus
`NlaBuffer::new_checked`). -/
def nlasParse : List Nat → Except NisporError (List RawNla)
  | [] => Except.ok []
  | b0 :: b1 :: b2 :: b3 :: rest =>
    let len := b0 + 256 * b1
    let kind := (b2 + 256 * b3) % 16384
    if len < 4 then
      Except.error (NisporError.protocolParse "invalid nla length")
    else if 4 + rest.length < len then
      Except.error (NisporError.protocolParse "buffer shorter than nla length")
    else
      match nlasParse ((b0 :: b1 :: b2 :: b3 :: rest).drop (align4 len)) with
      | Except.error e => Except.error e
      | Except.ok more => Except.ok (⟨kind, rest.take (len - 4)⟩ :: more)
  | _ => Except.error (NisporError.protocolParse "truncated nla header")
  termination_by l => l.length
  decreasing_by
    simp only [List.length_drop, List.length_cons, align4]
    omega

/-! ## SR-IOV decoder (`sriov.rs`). -/

/-- Rust slice `v.get(i..)`: `some` of the suffix when `i ≤ v.len()`,
`none` otherwise. -/
def sliceFrom (v : List Nat) (i : Nat) : Option (List Nat) :=
  if i ≤ v.length then some (v.drop i) else none

/-- The filesystem oracle: a directory path maps to the list of its entry
names, or `none` when the directory is missing or unreadable. -/
def Fs : Type := String → Option (List String)

/-- `sriov.rs`: `read_folder`. On a read error the (warned-about) result is
the empty list; otherwise the entry names, in directory order. -/
def read_folder (fs : Fs) (folder_path : String) : List String :=
  match fs folder_path with
  | none => []
  | some entries => entries

/-- `sriov.rs`: `get_vf_iface_name`. Reads the sysfs path
`/sys/class/net/<pf>/device/virtfn<id>/net/`; `Vec::pop` takes the last
entry of the directory listing. -/
def get_vf_iface_name (fs : Fs) (pf_name : String) (sriov_id : Nat) :
    Option String :=
  (read_folder fs ("/sys/class/net/" ++ pf_name ++ "/device/virtfn"
    ++ Nat.repr sriov_id ++ "/net/")).getLast?

/-- The `ok_or_else(|| NisporError::bug("invalid index into nla"))?` pattern
that guards every `nla.value().get(i..)` access in `get_sriov_info`. -/
def guardedSlice (v : List Nat) (i : Nat) : Except NisporError (List Nat) :=
  match sliceFrom v i with
  | some s => Except.ok s
  | none => Except.error (NisporError.bug "invalid index into nla")

/-- `sriov.rs`: one arm of the `match nla.kind()` inside `parse_vf_stats`. -/
def apply_vf_stats_nla (st : VfState) (nla : RawNla) :
    Except NisporError VfState :=
  if nla.kind = IFLA_VF_STATS_RX_PACKETS then
    match parse_as_u64 nla.value with
    | Except.ok v => Except.ok { st with rx_packets := v }
    | Except.error e => Except.error e
  else if nla.kind = IFLA_VF_STATS_TX_PACKETS then
    match parse_as_u64 nla.value with
    | Except.ok v => Except.ok { st with tx_packets := v }
    | Except.error e => Except.error e
  else if nla.kind = IFLA_VF_STATS_RX_BYTES then
    match parse_as_u64 nla.value with
    | Except.ok v => Except.ok { st with rx_bytes := v }
    | Except.error e => Except.error e
  else if nla.kind = IFLA_VF_STATS_TX_BYTES then
    match parse_as_u64 nla.value with
    | Except.ok v => Except.ok { st with tx_bytes := v }
    | Except.error e => Except.error e
  else if nla.kind = IFLA_VF_STATS_BROADCAST then
    match parse_as_u64 nla.value with
    | Except.ok v => Except.ok { st with broadcast := v }
    | Except.error e => Except.error e
  else if nla.kind = IFLA_VF_STATS_MULTICAST then
    match parse_as_u64 nla.value with
    | Except.ok v => Except.ok { st with multicast := v }
    | Except.error e => Except.error e
  else if nla.kind = IFLA_VF_STATS_RX_DROPPED then
    match parse_as_u64 nla.value with
    | Except.ok v => Except.ok { st with rx_dropped := v }
    | Except.error e => Except.error e
  else if nla.kind = IFLA_VF_STATS_TX_DROPPED then
    match parse_as_u64 nla.value with
    | Except.ok v => Except.ok { st with tx_dropped := v }
    | Except.error e => Except.error e
  else
    Except.ok st

/-- Fold of `apply_vf_stats_nla` over the attribute list. -/
def apply_vf_stats_nlas : List RawNla → VfState → Except NisporError VfState
  | [], st => Except.ok st
  | nla :: rest, st =>
    match apply_vf_stats_nla st nla with
    | Except.ok st' => apply_vf_stats_nlas rest st'
    | Except.error e => Except.error e

/-- `sriov.rs`: `parse_vf_stats`. -/
def parse_vf_stats (raw : List Nat) : Except NisporError VfState :=
  match nlasParse raw with
  | Except.error e => Except.error e
  | Except.ok nlas => apply_vf_stats_nlas nlas VfState.default

/-- `sriov.rs`: one arm of the `match nla.kind()` inside the per-port loop of
`get_sriov_info`. -/
def apply_vf_nla (fs : Fs) (pf_iface_name : String) (mac_len : Nat)
    (vf : VfInfo) (nla : RawNla) : Except NisporError VfInfo :=
  if nla.kind = IFLA_VF_MAC then
    match parse_as_u32 nla.value with
    | Except.error e => Except.error e
    | Except.ok id =>
      let vf := { vf with
        id := id,
        iface_name := get_vf_iface_name fs pf_iface_name id,
        pf_name := some pf_iface_name }
      match guardedSlice nla.value 4 with
      | Except.error e => Except.error e
      | Except.ok s =>
        match parse_as_mac mac_len s with
        | Except.error e => Except.error e
        | Except.ok mac => Except.ok { vf with mac := mac }
  else if nla.kind = IFLA_VF_VLAN then
    match guardedSlice nla.value 4 with
    | Except.error e => Except.error e
    | Except.ok s4 =>
      match parse_as_u32 s4 with
      | Except.error e => Except.error e
      | Except.ok vlan_id =>
        match guardedSlice nla.value 8 with
        | Except.error e => Except.error e
        | Except.ok s8 =>
          match parse_as_u32 s8 with
          | Except.error e => Except.error e
          | Except.ok qos =>
            Except.ok { vf with vlan_id := vlan_id, qos := qos }
  else if nla.kind = IFLA_VF_TX_RATE then
    match guardedSlice nla.value 4 with
    | Except.error e => Except.error e
    | Except.ok s =>
      match parse_as_u32 s with
      | Except.error e => Except.error e
      | Except.ok v => Except.ok { vf with tx_rate := v }
  else if nla.kind = IFLA_VF_SPOOFCHK then
    match guardedSlice nla.value 4 with
    | Except.error e => Except.error e
    | Except.ok s =>
      match parse_as_u32 s with
      | Except.error e => Except.error e
      | Except.ok d =>
        Except.ok { vf with spoof_check := decide (d > 0) && decide (d ≠ U32_MAX) }
  else if nla.kind = IFLA_VF_LINK_STATE then
    match guardedSlice nla.value 4 with
    | Except.error e => Except.error e
    | Except.ok s =>
      match parse_as_u32 s with
      | Except.error e => Except.error e
      | Except.ok d => Except.ok { vf with link_state := VfLinkState.ofNat d }
  else if nla.kind = IFLA_VF_RATE then
    match guardedSlice nla.value 4 with
    | Except.error e => Except.error e
    | Except.ok s4 =>
      match parse_as_u32 s4 with
      | Except.error e => Except.error e
      | Except.ok minr =>
        match guardedSlice nla.value 8 with
        | Except.error e => Except.error e
        | Except.ok s8 =>
          match parse_as_u32 s8 with
          | Except.error e => Except.error e
          | Except.ok maxr =>
            Except.ok { vf with min_tx_rate := minr, max_tx_rate := maxr }
  else if nla.kind = IFLA_VF_RSS_QUERY_EN then
    match guardedSlice nla.value 4 with
    | Except.error e => Except.error e
    | Except.ok s =>
      match parse_as_u32 s with
      | Except.error e => Except.error e
      | Except.ok d =>
        Except.ok { vf with query_rss := decide (d > 0) && decide (d ≠ U32_MAX) }
  else if nla.kind = IFLA_VF_STATS then
    match parse_vf_stats nla.value with
    | Except.error e => Except.error e
    | Except.ok st => Except.ok { vf with state := st }
  else if nla.kind = IFLA_VF_TRUST then
    match guardedSlice nla.value 4 with
    | Except.error e => Except.error e
    | Except.ok s =>
      match parse_as_u32 s with
      | Except.error e => Except.error e
      | Except.ok d =>
        Except.ok { vf with trust := decide (d > 0) && decide (d ≠ U32_MAX) }
  else if nla.kind = IFLA_VF_IB_NODE_GUID then
    match parse_as_u64 nla.value with
    | Except.error e => Except.error e
    | Except.ok v => Except.ok { vf with ib_node_guid := some (toHexUpper v) }
  else if nla.kind = IFLA_VF_IB_PORT_GUID then
    match parse_as_u64 nla.value with
    | Except.error e => Except.error e
    | Except.ok v => Except.ok { vf with ib_port_guid := some (toHexUpper v) }
  else if nla.kind = IFLA_VF_VLAN_LIST then
    Except.ok vf
  else if nla.kind = IFLA_VF_BROADCAST then
    match parse_as_mac mac_len nla.value with
    | Except.error e => Except.error e
    | Except.ok mac => Except.ok { vf with broadcast := mac }
  else
    Except.ok vf

/-- Fold of `apply_vf_nla` over one port's attribute list. -/
def apply_vf_nlas (fs : Fs) (pf_iface_name : String) (mac_len : Nat) :
    List RawNla → VfInfo → Except NisporError VfInfo
  | [], vf => Except.ok vf
  | nla :: rest, vf =>
    match apply_vf_nla fs pf_iface_name mac_len vf nla with
    | Except.ok vf' => apply_vf_nlas fs pf_iface_name mac_len rest vf'
    | Except.error e => Except.error e

/-- The per-port loop of `get_sriov_info`: each port yields one `VfInfo`
starting from `VfInfo::default()`. -/
def parse_vf_ports (fs : Fs) (pf_iface_name : String) (mac_len : Nat) :
    List RawNla → Except NisporError (List VfInfo)
  | [] => Except.ok []
  | port :: rest =>
    match nlasParse port.value with
    | Except.error e => Except.error e
    | Except.ok port_nlas =>
      match apply_vf_nlas fs pf_iface_name mac_len port_nlas VfInfo.default with
      | Except.error e => Except.error e
      | Except.ok vf =>
        match parse_vf_ports fs pf_iface_name mac_len rest with
        | Except.error e => Except.error e
        | Except.ok vfs => Except.ok (vf :: vfs)

/-- `sriov.rs`: `get_sriov_info`. -/
def get_sriov_info (fs : Fs) (pf_iface_name : String) (raw : List Nat)
    (iface_type : IfaceType) : Except NisporError SriovInfo :=
  let mac_len : Nat :=
    match iface_type with
    | IfaceType.Ethernet => ETH_ALEN
    | IfaceType.Infiniband => INFINIBAND_ALEN
    | _ => MAX_ADDR_LEN
  match nlasParse raw with
  | Except.error e => Except.error e
  | Except.ok ports =>
    match parse_vf_ports fs pf_iface_name mac_len ports with
    | Except.error e => Except.error e
    | Except.ok vfs => Except.ok { vfs := vfs }

/-- `sriov.rs`: the dictionary-building loop of `sriov_vf_iface_tidy_up`:
the Rust fills a `HashMap<String, VfInfo>` keyed by each VF entry's
`iface_name`, cloning the entry; a later insert shadows an earlier one,
hence the lookups below search the reversed entry list. -/
def sriov_vf_entries (iface_states : List Iface) : List (String × VfInfo) :=
  iface_states.flatMap fun iface =>
    match iface.sriov with
    | some sriov_conf =>
      sriov_conf.vfs.filterMap fun vf_info =>
        vf_info.iface_name.map fun vf_name => (vf_name, vf_info)
    | none => []

/-- `sriov.rs`: `sriov_vf_iface_tidy_up` — the drain loop: each interface
named by a dictionary key receives the copied entry as its `sriov_vf`
back-reference. -/
def sriov_vf_iface_tidy_up (iface_states : List Iface) : List Iface :=
  iface_states.map fun iface =>
    match (sriov_vf_entries iface_states).reverse.find?
        (fun e => e.1 == iface.name) with
    | some e => { iface with sriov_vf := some e.2 }
    | none => iface

/-! ## Link message reducer (`iface.rs`: `parse_nl_msg_to_iface`). -/

/-- `netlink_packet_route::link::nlas::InfoKind` (the crate enum is
`#[non_exhaustive]`; these are its variants, `Other` carrying a free-form
kind string). -/
inductive InfoKind
  | Dummy
  | Ifb
  | Bridge
  | Tun
  | Nlmon
  | Vlan
  | Veth
  | Vxlan
  | Bond
  | IpVlan
  | MacVlan
  | MacVtap
  | GreTap
  | GreTap6
  | IpTun
  | SitTun
  | GreTun
  | GreTun6
  | Vti
  | Vrf
  | Gtp
  | Ipoib
  | Wireguard
  | Other (s : String)
  deriving DecidableEq, Repr

/-- Rust `format!("{t:?}")` on the `InfoKind` variants that reach the
catch-all arm of the `match` in `parse_nl_msg_to_iface`. -/
def InfoKind.debugStr : InfoKind → String
  | InfoKind.Dummy => "Dummy"
  | InfoKind.Ifb => "Ifb"
  | InfoKind.Bridge => "Bridge"
  | InfoKind.Tun => "Tun"
  | InfoKind.Nlmon => "Nlmon"
  | InfoKind.Vlan => "Vlan"
  | InfoKind.Veth => "Veth"
  | InfoKind.Vxlan => "Vxlan"
  | InfoKind.Bond => "Bond"
  | InfoKind.IpVlan => "IpVlan"
  | InfoKind.MacVlan => "MacVlan"
  | InfoKind.MacVtap => "MacVtap"
  | InfoKind.GreTap => "GreTap"
  | InfoKind.GreTap6 => "GreTap6"
  | InfoKind.IpTun => "IpTun"
  | InfoKind.SitTun => "SitTun"
  | InfoKind.GreTun => "GreTun"
  | InfoKind.GreTun6 => "GreTun6"
  | InfoKind.Vti => "Vti"
  | InfoKind.Vrf => "Vrf"
  | InfoKind.Gtp => "Gtp"
  | InfoKind.Ipoib => "Ipoib"
  | InfoKind.Wireguard => "Wireguard"
  | InfoKind.Other s => "Other(" ++ s ++ ")"

/-- `netlink_packet_route::link::nlas::InfoPortKind`. -/
inductive InfoPortKind
  | Bond
  | Other (s : String)
  deriving DecidableEq, Repr

/-- `netlink_packet_route::link::nlas::State` (operational state). -/
inductive NlState
  | Unknown
  | NotPresent
  | Down
  | LowerLayerDown
  | Testing
  | Dormant
  | Up
  | Other (v : Nat)
  deriving DecidableEq, Repr

/-- Rust `format!("{state:?}")` on the `NlState` variants that reach the
catch-all arm of `_get_iface_state`. -/
def NlState.debugStr : NlState → String
  | NlState.Unknown => "Unknown"
  | NlState.NotPresent => "NotPresent"
  | NlState.Down => "Down"
  | NlState.LowerLayerDown => "LowerLayerDown"
  | NlState.Testing => "Testing"
  | NlState.Dormant => "Dormant"
  | NlState.Up => "Up"
  | NlState.Other v => "Other(" ++ Nat.repr v ++ ")"

/-- `netlink_packet_route::link::nlas::Info`, restricted to the
sub-attributes whose handling lives in `iface.rs` itself. The `Data` and
`PortData` sub-attributes are dispatched to the per-kind decoders of §4.1
(`get_bond_info`, `get_bridge_info`, …, `get_bond_subordinate_info`,
`get_bridge_port_info`, `get_vrf_subordinate_info`), none of which is among
the given sources; they fill only `Iface` fields outside this model. -/
inductive Info
  | Kind (k : InfoKind)
  | PortKind (k : InfoPortKind)
  deriving DecidableEq, Repr

/-- `netlink_packet_route::link::nlas::Nla`, restricted to the arms of the
attribute loop of `parse_nl_msg_to_iface` that touch modelled `Iface`
fields. `OtherNla` stands for every attribute the loop leaves to its
placeholder `else` branch, and for `AfSpecInet`, whose handler
`fill_af_spec_inet_info` (in `ip.rs`, not among the given sources) fills
only the unmodelled `ipv4`/`ipv6` fields. -/
inductive Nla
  | IfName (name : String)
  | Mtu (mtu : Nat)
  | MinMtu (mtu : Nat)
  | MaxMtu (mtu : Nat)
  | Address (mac : List Nat)
  | PermAddress (mac : List Nat)
  | OperState (s : NlState)
  | Master (controller : Nat)
  | Link (l : Nat)
  | Info (infos : List Info)
  | VfInfoList (data : List Nat)
  | NetnsId (id : Int)
  | OtherNla
  deriving DecidableEq, Repr

/-- `netlink_packet_route::LinkMessageHeader`, restricted to the fields
`parse_nl_msg_to_iface` reads. -/
structure LinkHeader where
  index : Nat
  link_layer_type : Nat
  flags : Nat
  deriving DecidableEq, Repr

/-- `netlink_packet_route::LinkMessage`. -/
structure LinkMessage where
  header : LinkHeader
  nlas : List Nla
  deriving DecidableEq, Repr

/-- The `match nl_msg.header.link_layer_type` at the top of
`parse_nl_msg_to_iface`. -/
def linkLayerKind (link_layer_type : Nat) : IfaceType :=
  if link_layer_type = ARPHRD_ETHER then IfaceType.Ethernet
  else if link_layer_type = ARPHRD_LOOPBACK then IfaceType.Loopback
  else if link_layer_type = ARPHRD_INFINIBAND then IfaceType.Infiniband
  else IfaceType.Unknown

/-- The scan of `_get_iface_name` over the attribute list. -/
def get_iface_name_loop : List Nla → String
  | [] => ""
  | Nla.IfName name :: _ => name
  | _ :: rest => get_iface_name_loop rest

/-- `iface.rs`: `_get_iface_name` — the first `IfName` attribute, or the
empty string. -/
def _get_iface_name (nl_msg : LinkMessage) : String :=
  get_iface_name_loop nl_msg.nlas

/-- `iface.rs`: `_get_iface_state`. -/
def _get_iface_state (state : NlState) : IfaceState :=
  match state with
  | NlState.Up => IfaceState.Up
  | NlState.Dormant => IfaceState.Dormant
  | NlState.Down => IfaceState.Down
  | NlState.LowerLayerDown => IfaceState.LowerLayerDown
  | NlState.Unknown => IfaceState.Unknown
  | s => IfaceState.Other s.debugStr

/-- `iface.rs`: the `match t` of the `Info::Kind` arm of
`parse_nl_msg_to_iface` — the `IfaceType` an info-kind maps to. -/
def infoKindToIfaceType (t : InfoKind) : IfaceType :=
  match t with
  | InfoKind.Bond => IfaceType.Bond
  | InfoKind.Veth => IfaceType.Veth
  | InfoKind.Bridge => IfaceType.Bridge
  | InfoKind.Vlan => IfaceType.Vlan
  | InfoKind.Vxlan => IfaceType.Vxlan
  | InfoKind.Dummy => IfaceType.Dummy
  | InfoKind.Tun => IfaceType.Tun
  | InfoKind.Vrf => IfaceType.Vrf
  | InfoKind.MacVlan => IfaceType.MacVlan
  | InfoKind.MacVtap => IfaceType.MacVtap
  | InfoKind.Ipoib => IfaceType.Ipoib
  | InfoKind.Other s =>
    if s = "openvswitch" then IfaceType.OpenvSwitch else IfaceType.Other s
  | t => IfaceType.Other t.debugStr

/-- `iface.rs`: the kind-update rule of the `Info::Kind` arm: an `Other`
info-kind replaces the current type only when that is `Unknown`; any
recognized info-kind overwrites unconditionally. -/
def applyInfoKind (current : IfaceType) (t : InfoKind) : IfaceType :=
  match infoKindToIfaceType t with
  | IfaceType.Other s =>
    if current = IfaceType.Unknown then IfaceType.Other s else current
  | ty => ty

/-- `iface.rs`: the first and third loops over the `Info` sub-attributes of
an `Nla::Info` attribute (the kind loop, then the port-kind loop; the data
loops fill only unmodelled fields). -/
def applyInfos (i : Iface) (infos : List Info) : Iface :=
  let i := infos.foldl
    (fun acc info =>
      match info with
      | Info.Kind t => { acc with iface_type := applyInfoKind acc.iface_type t }
      | _ => acc) i
  infos.foldl
    (fun acc info =>
      match info with
      | Info.PortKind InfoPortKind.Bond =>
        { acc with controller_type := some ControllerType.Bond }
      | Info.PortKind (InfoPortKind.Other s) =>
        { acc with controller_type := some (ControllerType.ofStr s) }
      | _ => acc) i

/-- `iface.rs`: `_parse_iface_flags` — the fixed chain of bit tests, each
appending one named flag. -/
def _parse_iface_flags (flags : Nat) : List IfaceFlags :=
  (if flags &&& IFF_ALLMULTI > 0 then [IfaceFlags.AllMulti] else []) ++
  (if flags &&& IFF_AUTOMEDIA > 0 then [IfaceFlags.AutoMedia] else []) ++
  (if flags &&& IFF_BROADCAST > 0 then [IfaceFlags.Broadcast] else []) ++
  (if flags &&& IFF_DEBUG > 0 then [IfaceFlags.Debug] else []) ++
  (if flags &&& IFF_DORMANT > 0 then [IfaceFlags.Dormant] else []) ++
  (if flags &&& IFF_LOOPBACK > 0 then [IfaceFlags.Loopback] else []) ++
  (if flags &&& IFF_LOWER_UP > 0 then [IfaceFlags.LowerUp] else []) ++
  (if flags &&& IFF_MASTER > 0 then [IfaceFlags.Controller] else []) ++
  (if flags &&& IFF_MULTICAST > 0 then [IfaceFlags.Multicast] else []) ++
  (if flags &&& IFF_NOARP > 0 then [IfaceFlags.NoArp] else []) ++
  (if flags &&& IFF_POINTOPOINT > 0 then [IfaceFlags.PoinToPoint] else []) ++
  (if flags &&& IFF_PORTSEL > 0 then [IfaceFlags.Portsel] else []) ++
  (if flags &&& IFF_PROMISC > 0 then [IfaceFlags.Promisc] else []) ++
  (if flags &&& IFF_RUNNING > 0 then [IfaceFlags.Running] else []) ++
  (if flags &&& IFF_PORT > 0 then [IfaceFlags.Subordinate] else []) ++
  (if flags &&& IFF_UP > 0 then [IfaceFlags.Up] else [])

/-- `iface.rs`: the attribute loop of `parse_nl_msg_to_iface`, carrying the
interface record under construction and the pending generic `link` index.
`link_layer_type` is the type derived from the header (passed separately to
`get_sriov_info`, exactly as in the source). -/
def fold_nlas (fs : Fs) (link_layer_type : IfaceType) :
    List Nla → Iface → Option Nat →
    Except NisporError (Iface × Option Nat)
  | [], i, link => Except.ok (i, link)
  | nla :: rest, i, link =>
    match nla with
    | Nla.Mtu mtu =>
      fold_nlas fs link_layer_type rest { i with mtu := (mtu : Int) } link
    | Nla.MinMtu mtu =>
      fold_nlas fs link_layer_type rest
        { i with min_mtu := if mtu ≠ 0 then some (mtu : Int) else none } link
    | Nla.MaxMtu mtu =>
      fold_nlas fs link_layer_type rest
        { i with max_mtu := if mtu ≠ 0 then some (mtu : Int) else none } link
    | Nla.Address mac =>
      match parse_as_mac mac.length mac with
      | Except.error e => Except.error e
      | Except.ok s =>
        fold_nlas fs link_layer_type rest { i with mac_address := s } link
    | Nla.PermAddress mac =>
      match parse_as_mac mac.length mac with
      | Except.error e => Except.error e
      | Except.ok s =>
        fold_nlas fs link_layer_type rest
          { i with permanent_mac_address := s } link
    | Nla.OperState state =>
      fold_nlas fs link_layer_type rest
        { i with state := _get_iface_state state } link
    | Nla.Master controller =>
      fold_nlas fs link_layer_type rest
        { i with controller := some (Nat.repr controller) } link
    | Nla.Link l => fold_nlas fs link_layer_type rest i (some l)
    | Nla.Info infos =>
      fold_nlas fs link_layer_type rest (applyInfos i infos) link
    | Nla.VfInfoList data =>
      match get_sriov_info fs i.name data link_layer_type with
      | Except.ok info =>
        fold_nlas fs link_layer_type rest { i with sriov := some info } link
      | Except.error _ => fold_nlas fs link_layer_type rest i link
    | Nla.NetnsId id =>
      fold_nlas fs link_layer_type rest { i with link_netnsid := some id } link
    | _ => fold_nlas fs link_layer_type rest i link

/-- `iface.rs`: `parse_nl_msg_to_iface`. The post-loop rewrites of the
unmodelled `vlan`/`ipoib`/`mac_vlan`/`mac_vtap` base-interface fields are
omitted; the veth arm of the `match` on the pending `link` index is kept. -/
def parse_nl_msg_to_iface (fs : Fs) (nl_msg : LinkMessage) :
    Except NisporError (Option Iface) :=
  let name := _get_iface_name nl_msg
  if name = "" then Except.ok none
  else
    let link_layer_type := linkLayerKind nl_msg.header.link_layer_type
    let init : Iface := { Iface.default with
      name := name,
      iface_type := link_layer_type,
      index := nl_msg.header.index }
    match fold_nlas fs link_layer_type nl_msg.nlas init none with
    | Except.error e => Except.error e
    | Except.ok (st, link) =>
      let st :=
        match link, st.iface_type with
        | some iface_index, IfaceType.Veth =>
          { st with veth := some { peer := Nat.repr iface_index } }
        | _, _ => st
      Except.ok (some { st with flags := _parse_iface_flags nl_msg.header.flags })

/-! ## Veth (`veth.rs`). -/

/-- `veth.rs`: `pub type VethConf = VethInfo;`. -/
abbrev VethConf : Type := VethInfo

/-- `veth.rs`: `VethConf::create`. The netlink round-trip is modelled by its
outcome `kernel_result`: `ok` when the kernel accepted the veth-add request,
`error` with the kernel's message when it rejected it. On rejection the
surfaced error is built with `NisporError::bug`. -/
def VethConf.create (c : VethConf) (name : String)
    (kernel_result : Except String Unit) : Except NisporError Unit :=
  match kernel_result with
  | Except.ok _ => Except.ok ()
  | Except.error e =>
    Except.error (NisporError.bug
      ("Failed to create new veth pair '" ++ name ++ "' '" ++ c.peer
        ++ "': " ++ e))

/-- `veth.rs`: `veth_iface_tidy_up`. The Rust builds an
`index → name` `HashMap` over the whole map (string-rendered index as key;
a later insert shadows an earlier one, hence the lookup searches the
reversed list) and rewrites each local veth's raw peer index to the peer's
name; interfaces with `link_netnsid` set are skipped. -/
def veth_iface_tidy_up (iface_states : List Iface) : List Iface :=
  let index_to_name : List (String × String) :=
    iface_states.map fun iface => (Nat.repr iface.index, iface.name)
  iface_states.map fun iface =>
    if iface.iface_type ≠ IfaceType.Veth then iface
    else if iface.link_netnsid.isSome then iface
    else
      match iface.veth with
      | some info =>
        match index_to_name.reverse.find? (fun e => e.1 == info.peer) with
        | some e => { iface with veth := some { peer := e.2 } }
        | none => iface
      | none => iface

/-! ## MAC-change operations (`iface.rs`: `change_iface_state`,
`change_iface_mac`). The netlink handle is modelled as a recorder: each
function yields the list of requests it executes, in order. -/

/-- A netlink modification request issued through the handle. -/
inductive NlOp
  | linkUp (index : Nat)
  | linkDown (index : Nat)
  | linkSetMac (index : Nat) (mac : String)
  deriving DecidableEq, Repr

/-- `iface.rs`: `change_iface_state` — one up or down request. -/
def change_iface_state (index : Nat) (up : Bool) : List NlOp :=
  if up then [NlOp.linkUp index] else [NlOp.linkDown index]

/-- `iface.rs`: `change_iface_mac` — brings the link down first, then sets
the address. -/
def change_iface_mac (index : Nat) (mac_address : String) : List NlOp :=
  change_iface_state index false ++ [NlOp.linkSetMac index mac_address]

/-- Modelled from the spec (§4.6): the planner step for a MAC change. The
planner itself lives in `inter_ifaces.rs`, which is not among the given
sources; per the spec it "inserts a down → set-mac → (restore prior state)
triplet when MAC differs", the down → set-mac prefix being
`change_iface_mac` of `iface.rs` and the restore being a
`change_iface_state` back to the link's prior administrative state. -/
def plan_mac_change (index : Nat) (desired_mac current_mac : String)
    (prior_up : Bool) : List NlOp :=
  if desired_mac ≠ current_mac then
    change_iface_mac index desired_mac ++ change_iface_state index prior_up
  else []

/-! ## Statement apparatus: concrete oracles, encodings, and the
specification's enumerations, used only to state the theorems. -/

/-- The empty filesystem oracle (every directory missing). -/
def fsEmpty : Fs := fun _ => none

/-- The byte encoding of one netlink attribute with the given kind and
payload: 2-byte little-endian total length (4 + payload length), 2-byte
little-endian kind, then the payload. -/
def encodeNla (kind : Nat) (value : List Nat) : List Nat :=
  ((4 + value.length) % 256) :: ((4 + value.length) / 256 % 256)
    :: (kind % 256) :: (kind / 256 % 256) :: value

/-- The specification's list of known info-kinds (§4.2): bond, veth, bridge,
vlan, vxlan, dummy, tun, vrf, macvlan, macvtap, ipoib, and the literal
string "openvswitch", each with the interface kind it maps to. -/
def knownInfoKind : InfoKind → Option IfaceType
  | InfoKind.Bond => some IfaceType.Bond
  | InfoKind.Veth => some IfaceType.Veth
  | InfoKind.Bridge => some IfaceType.Bridge
  | InfoKind.Vlan => some IfaceType.Vlan
  | InfoKind.Vxlan => some IfaceType.Vxlan
  | InfoKind.Dummy => some IfaceType.Dummy
  | InfoKind.Tun => some IfaceType.Tun
  | InfoKind.Vrf => some IfaceType.Vrf
  | InfoKind.MacVlan => some IfaceType.MacVlan
  | InfoKind.MacVtap => some IfaceType.MacVtap
  | InfoKind.Ipoib => some IfaceType.Ipoib
  | InfoKind.Other s =>
    if s = "openvswitch" then some IfaceType.OpenvSwitch else none
  | _ => none

/-- The specification's flag table (§6): each named flag with the header bit
that produces it; the catch-all variants carry no bit. -/
def ifaceFlagBit : IfaceFlags → Option Nat
  | IfaceFlags.AllMulti => some IFF_ALLMULTI
  | IfaceFlags.AutoMedia => some IFF_AUTOMEDIA
  | IfaceFlags.Broadcast => some IFF_BROADCAST
  | IfaceFlags.Debug => some IFF_DEBUG
  | IfaceFlags.Dormant => some IFF_DORMANT
  | IfaceFlags.Loopback => some IFF_LOOPBACK
  | IfaceFlags.LowerUp => some IFF_LOWER_UP
  | IfaceFlags.Controller => some IFF_MASTER
  | IfaceFlags.Multicast => some IFF_MULTICAST
  | IfaceFlags.NoArp => some IFF_NOARP
  | IfaceFlags.PoinToPoint => some IFF_POINTOPOINT
  | IfaceFlags.Portsel => some IFF_PORTSEL
  | IfaceFlags.Promisc => some IFF_PROMISC
  | IfaceFlags.Running => some IFF_RUNNING
  | IfaceFlags.Subordinate => some IFF_PORT
  | IfaceFlags.Up => some IFF_UP
  | IfaceFlags.Other _ => none
  | IfaceFlags.Unknown => none

/-- The sysfs directory the VF name of VF `vf_id` under PF `pf` is read
from (§4.4, §6). -/
def vfSysfsPath (pf : String) (vf_id : Nat) : String :=
  "/sys/class/net/" ++ pf ++ "/device/virtfn" ++ Nat.repr vf_id ++ "/net/"

/-- The byte encoding of a VF attribute table holding one VF port with one
sub-attribute of the given kind whose payload is a 4-byte VF id (zero here)
followed by the 32-bit value `d` — the layout of the kernel's
`ifla_vf_spoofchk` / `ifla_vf_rss_query_en` / `ifla_vf_trust` structs. -/
def vfBoolAttrMsg (attr : Nat) (d : Nat) : List Nat :=
  encodeNla 1 (encodeNla attr ([0, 0, 0, 0] ++ le32Bytes d))

/-- A concrete local veth: index 1, raw peer index "2". -/
def vethA : Iface :=
  { Iface.default with
    name := "veth1", index := 1,
    iface_type := IfaceType.Veth, veth := some { peer := "2" } }

/-- A concrete local veth: index 2, raw peer index "1". -/
def vethB : Iface :=
  { Iface.default with
    name := "veth1.ep", index := 2,
    iface_type := IfaceType.Veth, veth := some { peer := "1" } }

/-- A concrete VF entry claiming the interface name "eth0vf0". -/
def vfEntry0 : VfInfo :=
  { VfInfo.default with
    id := 0, iface_name := some "eth0vf0",
    pf_name := some "eth0", trust := true }

/-- A concrete PF carrying one VF entry. -/
def pfIface : Iface :=
  { Iface.default with
    name := "eth0", index := 3,
    iface_type := IfaceType.Ethernet, sriov := some { vfs := [vfEntry0] } }

/-- The concrete interface named by `vfEntry0`. -/
def vfIface : Iface :=
  { Iface.default with
    name := "eth0vf0", index := 4,
    iface_type := IfaceType.Ethernet }

/-! ## Helper lemmas. -/

/-- In an association list with pairwise-distinct keys, `find?` on a key
returns exactly the member carrying that key. -/
theorem find_of_keys_nodup {β : Type} (l : List (String × β)) (n : String)
    (v : β) (hnd : (l.map Prod.fst).Nodup) (hmem : (n, v) ∈ l) :
    l.find? (fun e => e.1 == n) = some (n, v) := by
  induction l with
  | nil => cases hmem
  | cons hd tl ih =>
    rcases List.mem_cons.mp hmem with heq | htl
    · subst heq
      simp [List.find?]
    · have hkey : hd.1 ≠ n := by
        intro h
        have : n ∈ tl.map Prod.fst :=
          List.mem_map_of_mem Prod.fst htl
        simp only [List.map_cons, List.nodup_cons] at hnd
        exact hnd.1 (h ▸ this)
      have : (fun e => e.1 == n) hd = false := by
        simp [hkey]
      rw [List.find?_cons_of_neg _ (by simp [this, hkey])]
      exact ih (by simp only [List.map_cons, List.nodup_cons] at hnd; exact hnd.2)
        htl

/-- `find?` over the reversed list, given distinct keys. -/
theorem find_reverse_of_keys_nodup {β : Type} (l : List (String × β))
    (n : String) (v : β) (hnd : (l.map Prod.fst).Nodup) (hmem : (n, v) ∈ l) :
    l.reverse.find? (fun e => e.1 == n) = some (n, v) :=
  find_of_keys_nodup l.reverse n v
    (by rw [List.map_reverse]; exact (List.nodup_reverse.mpr hnd))
    (List.mem_reverse.mpr hmem)

theorem mem_ite_singleton {α : Type} (c : Prop) [Decidable c] (a x : α) :
    (a ∈ if c then [x] else []) ↔ c ∧ a = x := by
  by_cases h : c <;> simp [h]

/-! ## Theorems for the claims. -/

/-- C4: in `VethConf::create`, a kernel rejection of the veth-add request is
surfaced as a Bug-kind error (built by `NisporError::bug`), not as a
SysCall-kind error: the claim that the SysCall kind is used is false at this
concrete input. -/
theorem c4_counterexample :
    VethConf.create (VethInfo.mk "veth1.ep") "veth1" (Except.error "EPERM")
      = Except.error
          { kind := NisporErrorKind.Bug,
            msg := "Failed to create new veth pair 'veth1' 'veth1.ep': EPERM" }
    ∧ NisporErrorKind.Bug ≠ NisporErrorKind.SysCall := by
  constructor
  · rfl
  · decide

/-- C4 (amended): when the kernel rejects the veth-create netlink request,
the error surfaced to the caller is of the Bug kind of the error taxonomy,
with a descriptive message naming the operation (the veth pair being
created) and the kernel's error text; the SysCall kind is not produced on
this path. -/
theorem c4_veth_create_kernel_reject_is_bug (peer name e : String) :
    ∃ err : NisporError,
      VethConf.create (VethInfo.mk peer) name (Except.error e)
        = Except.error err
      ∧ err.kind = NisporErrorKind.Bug
      ∧ err.kind ≠ NisporErrorKind.SysCall
      ∧ err.msg = "Failed to create new veth pair '" ++ name ++ "' '"
          ++ peer ++ "': " ++ e := by
  refine ⟨{ kind := NisporErrorKind.Bug,
            msg := "Failed to create new veth pair '" ++ name ++ "' '"
              ++ peer ++ "': " ++ e }, rfl, rfl, by simp, rfl⟩

/-- C5: whenever the desired MAC differs from the current one, the planned
operation sequence for the interface is exactly the triplet: bring the link
down, set the MAC, then restore the prior administrative state. -/
theorem c5_mac_change_triplet (index : Nat)
    (desired_mac current_mac : String) (prior_up : Bool)
    (hdiff : desired_mac ≠ current_mac) :
    plan_mac_change index desired_mac current_mac prior_up
      = [NlOp.linkDown index,
         NlOp.linkSetMac index desired_mac,
         if prior_up then NlOp.linkUp index else NlOp.linkDown index] := by
  cases prior_up <;>
    simp [plan_mac_change, change_iface_mac, change_iface_state, hdiff]

/-- C5 witness: a concrete MAC change plan. -/
theorem c5_mac_change_triplet_witness :
    ("00:23:45:67:89:1a" ≠ "00:23:45:67:89:1b")
    ∧ plan_mac_change 7 "00:23:45:67:89:1a" "00:23:45:67:89:1b" true
        = [NlOp.linkDown 7, NlOp.linkSetMac 7 "00:23:45:67:89:1a",
           NlOp.linkUp 7] :=
  ⟨by decide,
   c5_mac_change_triplet 7 "00:23:45:67:89:1a" "00:23:45:67:89:1b" true
     (by decide)⟩

/-- C8: the decoded flag list of a 32-bit link header flags word contains
exactly the named flags whose bits are set (subordinate being bit 0x800),
and bits outside the table contribute no entry: a catch-all variant is never
a member. -/
theorem c8_iface_flags (flags : Nat) (fl : IfaceFlags) :
    fl ∈ _parse_iface_flags flags
      ↔ ∃ b, ifaceFlagBit fl = some b ∧ flags &&& b ≠ 0 := by
  cases fl <;>
    simp [_parse_iface_flags, ifaceFlagBit, mem_ite_singleton,
      Nat.pos_iff_ne_zero]

/-- C9: the VF interface name is taken from the sysfs directory
`/sys/class/net/<pf>/device/virtfn<vf_id>/net/`: when that directory holds a
single entry, that entry becomes the name; when the directory is missing or
unreadable, the name is left unset and no error is surfaced. -/
theorem c9_vf_iface_name (fs : Fs) (pf : String) (vf_id : Nat) :
    (∀ n, fs (vfSysfsPath pf vf_id) = some [n]
      → get_vf_iface_name fs pf vf_id = some n)
    ∧ (fs (vfSysfsPath pf vf_id) = none
      → get_vf_iface_name fs pf vf_id = none) := by
  constructor
  · intro n h
    unfold vfSysfsPath at h
    unfold get_vf_iface_name read_folder
    rw [h]
    rfl
  · intro h
    unfold vfSysfsPath at h
    unfold get_vf_iface_name read_folder
    rw [h]
    rfl

/-- C9 witness: a concrete filesystem holding one entry under the PF `eth0`,
VF 0 path, and nothing elsewhere. -/
theorem c9_vf_iface_name_witness :
    ((fun p => if p = "/sys/class/net/eth0/device/virtfn0/net/"
        then some ["eth0vf0"] else none : Fs)
          "/sys/class/net/eth0/device/virtfn0/net/" = some ["eth0vf0"]
      → get_vf_iface_name
          (fun p => if p = "/sys/class/net/eth0/device/virtfn0/net/"
            then some ["eth0vf0"] else none) "eth0" 0 = some "eth0vf0")
    ∧ (fsEmpty "/sys/class/net/eth0/device/virtfn0/net/" = none
      → get_vf_iface_name fsEmpty "eth0" 0 = none) :=
  ⟨fun h =>
    (c9_vf_iface_name
      (fun p => if p = "/sys/class/net/eth0/device/virtfn0/net/"
        then some ["eth0vf0"] else none) "eth0" 0).1 "eth0vf0" h,
   fun h => (c9_vf_iface_name fsEmpty "eth0" 0).2 h⟩

/-- C6: each VF attribute decoded from a 32-bit kernel integer into a
boolean — trust, spoof-check, rss-query-enable — is true iff the value is
strictly greater than zero and not the all-ones sentinel 0xFFFFFFFF. -/
theorem c6_vf_bool_decode (fs : Fs) (pf : String) (ty : IfaceType) (d : Nat)
    (hd : d < 4294967296) :
    (∃ vf : VfInfo,
      get_sriov_info fs pf (vfBoolAttrMsg IFLA_VF_TRUST d) ty
          = Except.ok { vfs := [vf] }
        ∧ (vf.trust = true ↔ (0 < d ∧ d ≠ U32_MAX)))
    ∧ (∃ vf : VfInfo,
      get_sriov_info fs pf (vfBoolAttrMsg IFLA_VF_SPOOFCHK d) ty
          = Except.ok { vfs := [vf] }
        ∧ (vf.spoof_check = true ↔ (0 < d ∧ d ≠ U32_MAX)))
    ∧ (∃ vf : VfInfo,
      get_sriov_info fs pf (vfBoolAttrMsg IFLA_VF_RSS_QUERY_EN d) ty
          = Except.ok { vfs := [vf] }
        ∧ (vf.query_rss = true ↔ (0 < d ∧ d ≠ U32_MAX))) := by
  refine ⟨⟨{ VfInfo.default with
        trust := decide (d > 0) && decide (d ≠ U32_MAX) }, ?_, ?_⟩,
      ⟨{ VfInfo.default with
        spoof_check := decide (d > 0) && decide (d ≠ U32_MAX) }, ?_, ?_⟩,
      ⟨{ VfInfo.default with
        query_rss := decide (d > 0) && decide (d ≠ U32_MAX) }, ?_, ?_⟩⟩
  all_goals
    simp [vfBoolAttrMsg, get_sriov_info, nlasParse, encodeNla, align4,
      le32Bytes, parse_vf_ports, apply_vf_nlas, apply_vf_nla, IFLA_VF_MAC,
      IFLA_VF_VLAN, IFLA_VF_TX_RATE, IFLA_VF_SPOOFCHK, IFLA_VF_LINK_STATE,
      IFLA_VF_RATE, IFLA_VF_RSS_QUERY_EN, IFLA_VF_STATS, IFLA_VF_TRUST,
      IFLA_VF_IB_NODE_GUID, IFLA_VF_IB_PORT_GUID, IFLA_VF_VLAN_LIST,
      IFLA_VF_BROADCAST, guardedSlice, sliceFrom, parse_as_u32,
      leBytesToNat, U32_MAX]
  all_goals
    rw [Bool.eq_iff_iff]
    simp only [Bool.and_eq_true, Bool.or_eq_true, decide_eq_true_eq,
      Bool.not_eq_true', decide_eq_false_iff_not]
    omega

/-- C6 witness: value 3 (positive, not the sentinel) under a concrete
oracle, PF name and interface type. -/
theorem c6_vf_bool_decode_witness :
    (3 < 4294967296)
    ∧ ((∃ vf : VfInfo,
      get_sriov_info fsEmpty "eth0" (vfBoolAttrMsg IFLA_VF_TRUST 3)
          IfaceType.Ethernet = Except.ok { vfs := [vf] }
        ∧ (vf.trust = true ↔ (0 < 3 ∧ 3 ≠ U32_MAX)))
    ∧ (∃ vf : VfInfo,
      get_sriov_info fsEmpty "eth0" (vfBoolAttrMsg IFLA_VF_SPOOFCHK 3)
          IfaceType.Ethernet = Except.ok { vfs := [vf] }
        ∧ (vf.spoof_check = true ↔ (0 < 3 ∧ 3 ≠ U32_MAX)))
    ∧ (∃ vf : VfInfo,
      get_sriov_info fsEmpty "eth0" (vfBoolAttrMsg IFLA_VF_RSS_QUERY_EN 3)
          IfaceType.Ethernet = Except.ok { vfs := [vf] }
        ∧ (vf.query_rss = true ↔ (0 < 3 ∧ 3 ≠ U32_MAX)))) :=
  ⟨by omega, c6_vf_bool_decode fsEmpty "eth0" IfaceType.Ethernet 3 (by omega)⟩

/-- C10: the slice accesses of `get_sriov_info` into an attribute value are
guarded: when a VF boolean attribute's payload is too short for the needed
offset (here, a trust attribute with fewer than four value bytes, so that
the `value.get(4..)` offset is out of bounds), the function returns the
typed Bug error of the guard instead of indexing past the end, for every
such payload, filesystem oracle, PF name and interface type. -/
theorem c10_sriov_guarded_access (fs : Fs) (pf : String) (ty : IfaceType)
    (v : List Nat) (hv : v.length < 4) :
    get_sriov_info fs pf (encodeNla 1 (encodeNla IFLA_VF_TRUST v)) ty
      = Except.error (NisporError.bug "invalid index into nla") := by
  rcases v with _ | ⟨a, _ | ⟨b, _ | ⟨c, _ | ⟨e, rest⟩⟩⟩⟩ <;>
      simp only [List.length_nil, List.length_cons] at hv
  case cons.cons.cons.cons => omega
  all_goals
    simp [get_sriov_info, nlasParse, encodeNla, align4, parse_vf_ports,
      apply_vf_nlas, apply_vf_nla, IFLA_VF_MAC, IFLA_VF_VLAN,
      IFLA_VF_TX_RATE, IFLA_VF_SPOOFCHK, IFLA_VF_LINK_STATE, IFLA_VF_RATE,
      IFLA_VF_RSS_QUERY_EN, IFLA_VF_STATS, IFLA_VF_TRUST, guardedSlice,
      sliceFrom, parse_as_u32, NisporError.bug]

/-- C10 witness: a two-byte trust payload. -/
theorem c10_sriov_guarded_access_witness :
    ([7, 7] : List Nat).length < 4
    ∧ get_sriov_info fsEmpty "eth0" (encodeNla 1 (encodeNla IFLA_VF_TRUST [7, 7]))
        IfaceType.Ethernet
      = Except.error (NisporError.bug "invalid index into nla") :=
  ⟨by simp, c10_sriov_guarded_access fsEmpty "eth0" IfaceType.Ethernet [7, 7]
    (by simp)⟩

/-- A recognized info-kind maps every current kind to its own variant: the
kind-update rule of the reducer overwrites unconditionally in this case. -/
theorem applyInfoKind_of_known (cur : IfaceType) (k : InfoKind)
    (ty : IfaceType) (hk : knownInfoKind k = some ty) :
    applyInfoKind cur k = ty := by
  cases k <;> simp only [knownInfoKind, Option.some.injEq, reduceCtorEq] at hk
  case Other s =>
    by_cases hs : s = "openvswitch"
    · subst hs
      simp at hk
      subst hk
      simp [applyInfoKind, infoKindToIfaceType]
    · simp [hs] at hk
  all_goals
    subst hk
    rfl

/-- C1 counterexample: a link message whose link-layer type is loopback
(772) and whose info-kind is the unrecognized string "foo" is reported with
kind loopback — the link-layer-derived kind is retained — and not, as the
claim states for a non-ethernet/infiniband derived kind, with the
unrecognized string as an "other" variant. -/
theorem c1_counterexample :
    parse_nl_msg_to_iface fsEmpty
        { header := { index := 1, link_layer_type := 772, flags := 0 },
          nlas := [Nla.IfName "lo1",
            Nla.Info [Info.Kind (InfoKind.Other "foo")]] }
      = Except.ok (some { Iface.default with
          name := "lo1", index := 1, iface_type := IfaceType.Loopback })
    ∧ IfaceType.Loopback ≠ IfaceType.Other "foo" := by
  constructor
  · rfl
  · decide

/-- C1 (amended): when the info-kind is present but unrecognized, the
link-layer-derived kind is retained whenever it is anything other than
unknown (ethernet, infiniband, and also loopback); only when the
link-layer-derived kind is unknown is the unrecognized info-kind string
stored as an "other" variant. -/
theorem c1_unrecognized_info_kind (fs : Fs) (nm : String)
    (idx llt fl : Nat) (s : String) (hnm : nm ≠ "")
    (hs : s ≠ "openvswitch") :
    ∃ i : Iface,
      parse_nl_msg_to_iface fs
          { header := { index := idx, link_layer_type := llt, flags := fl },
            nlas := [Nla.IfName nm, Nla.Info [Info.Kind (InfoKind.Other s)]] }
        = Except.ok (some i)
      ∧ i.iface_type =
          (if linkLayerKind llt = IfaceType.Unknown then IfaceType.Other s
           else linkLayerKind llt) := by
  refine ⟨{ Iface.default with
      name := nm, index := idx,
      iface_type := applyInfoKind (linkLayerKind llt) (InfoKind.Other s),
      flags := _parse_iface_flags fl }, ?_, ?_⟩
  · simp [parse_nl_msg_to_iface, _get_iface_name, get_iface_name_loop, hnm,
      fold_nlas, applyInfos]
  · simp [applyInfoKind, infoKindToIfaceType, hs]

/-- C1 witness: an ethernet link-layer type with unrecognized info-kind
"foo" — the ethernet kind is retained. -/
theorem c1_unrecognized_info_kind_witness :
    ("eth1" ≠ "") ∧ ("foo" ≠ "openvswitch")
    ∧ (∃ i : Iface,
      parse_nl_msg_to_iface fsEmpty
          { header := { index := 2, link_layer_type := 1, flags := 0 },
            nlas := [Nla.IfName "eth1",
              Nla.Info [Info.Kind (InfoKind.Other "foo")]] }
        = Except.ok (some i)
      ∧ i.iface_type =
          (if linkLayerKind 1 = IfaceType.Unknown then IfaceType.Other "foo"
           else linkLayerKind 1)) :=
  ⟨by decide, by decide,
   c1_unrecognized_info_kind fsEmpty "eth1" 2 1 0 "foo" (by decide)
     (by decide)⟩

/-- C2: an info-kind that maps to a known enum variant (bond, veth, bridge,
vlan, vxlan, dummy, tun, vrf, macvlan, macvtap, ipoib, or the literal string
"openvswitch") overwrites the kind derived from the link-layer type field,
whatever that was. -/
theorem c2_known_info_kind_overwrites (fs : Fs) (nm : String)
    (idx llt fl : Nat) (k : InfoKind) (ty : IfaceType)
    (hnm : nm ≠ "") (hk : knownInfoKind k = some ty) :
    ∃ i : Iface,
      parse_nl_msg_to_iface fs
          { header := { index := idx, link_layer_type := llt, flags := fl },
            nlas := [Nla.IfName nm, Nla.Info [Info.Kind k]] }
        = Except.ok (some i)
      ∧ i.iface_type = ty := by
  refine ⟨{ Iface.default with
      name := nm, index := idx, iface_type := ty,
      flags := _parse_iface_flags fl }, ?_, rfl⟩
  simp [parse_nl_msg_to_iface, _get_iface_name, get_iface_name_loop, hnm,
    fold_nlas, applyInfos, applyInfoKind_of_known _ _ _ hk]

/-- C2 witness: the claim's instance — link-layer type ethernet (1) with
info-kind veth is reported as kind veth. -/
theorem c2_known_info_kind_overwrites_witness :
    ("veth1" ≠ "") ∧ (knownInfoKind InfoKind.Veth = some IfaceType.Veth)
    ∧ (∃ i : Iface,
      parse_nl_msg_to_iface fsEmpty
          { header := { index := 5, link_layer_type := 1, flags := 0 },
            nlas := [Nla.IfName "veth1", Nla.Info [Info.Kind InfoKind.Veth]] }
        = Except.ok (some i)
      ∧ i.iface_type = IfaceType.Veth) :=
  ⟨by decide, by rfl,
   c2_known_info_kind_overwrites fsEmpty "veth1" 5 1 0 InfoKind.Veth
     IfaceType.Veth (by decide) rfl⟩

/-- C3: after the veth tidy pass, (a) a veth with unset link-netns-id whose
raw peer index matches the (string-rendered, pairwise-distinct) index of an
interface of the map carries that interface's name as its `veth.peer`;
(b) an interface with link-netns-id set is left untouched, so its
`veth.peer` stays the numeric peer index string; (c) the reducer records the
raw peer of a veth as the `Link` attribute's index rendered as a string. -/
theorem c3_veth_peer_tidy (m : List Iface)
    (hidx : (m.map (fun i => Nat.repr i.index)).Nodup)
    (i : Nat) (x : Iface) (hx : m[i]? = some x) :
    (∀ (p : String) (t : Iface), x.iface_type = IfaceType.Veth →
      x.link_netnsid = none → x.veth = some { peer := p } → t ∈ m →
      Nat.repr t.index = p →
      (veth_iface_tidy_up m)[i]?
        = some { x with veth := some { peer := t.name } })
    ∧ (x.link_netnsid.isSome → (veth_iface_tidy_up m)[i]? = some x)
    ∧ (∀ (fs : Fs) (nm : String) (idx llt fl l : Nat), nm ≠ "" →
      ∃ j : Iface,
        parse_nl_msg_to_iface fs
            { header := { index := idx, link_layer_type := llt, flags := fl },
              nlas := [Nla.IfName nm, Nla.Info [Info.Kind InfoKind.Veth],
                Nla.Link l] }
          = Except.ok (some j)
        ∧ j.veth = some { peer := Nat.repr l }
        ∧ j.iface_type = IfaceType.Veth) := by
  refine ⟨?_, ?_, ?_⟩
  · intro p t hveth hns hpeer ht hp
    have hmem : (p, t.name) ∈ m.map fun j => (Nat.repr j.index, j.name) := by
      refine List.mem_map.mpr ⟨t, ht, ?_⟩
      rw [hp]
    have hkeys :
        ((m.map fun j => (Nat.repr j.index, j.name)).map Prod.fst).Nodup := by
      rw [List.map_map]
      exact hidx
    have hfind := find_reverse_of_keys_nodup _ p t.name hkeys hmem
    unfold veth_iface_tidy_up
    rw [List.getElem?_map, hx]
    simp [hveth, hns, hpeer, hfind]
  · intro hns
    unfold veth_iface_tidy_up
    rw [List.getElem?_map, hx]
    by_cases hv : x.iface_type ≠ IfaceType.Veth <;> simp [hv, hns]
  · intro fs nm idx llt fl l hnm
    refine ⟨{ Iface.default with
        name := nm, index := idx, iface_type := IfaceType.Veth,
        veth := some { peer := Nat.repr l },
        flags := _parse_iface_flags fl }, ?_, rfl, rfl⟩
    simp [parse_nl_msg_to_iface, _get_iface_name, get_iface_name_loop, hnm,
      fold_nlas, applyInfos, applyInfoKind, infoKindToIfaceType]

/-- C3 witness: a concrete local veth pair — `veth1` (index 1, raw peer "2")
is rewritten to carry the name of `veth1.ep` (index 2). -/
theorem c3_veth_peer_tidy_witness :
    (([vethA, vethB].map (fun i => Nat.repr i.index)).Nodup)
    ∧ [vethA, vethB][0]? = some vethA
    ∧ vethA.iface_type = IfaceType.Veth
    ∧ vethA.link_netnsid = none
    ∧ vethA.veth = some { peer := "2" }
    ∧ vethB ∈ [vethA, vethB]
    ∧ Nat.repr vethB.index = "2"
    ∧ (veth_iface_tidy_up [vethA, vethB])[0]?
        = some { vethA with veth := some { peer := "veth1.ep" } } :=
  ⟨by decide, rfl, rfl, rfl, rfl, by decide, rfl,
   (c3_veth_peer_tidy [vethA, vethB] (by decide) 0 vethA rfl).1 "2" vethB
     rfl rfl rfl (by decide) rfl⟩

/-- C7: after the SR-IOV tidy pass, an interface whose name is claimed by a
VF entry of some PF's VF list (with the claimed names pairwise distinct, as
in the `HashMap` the Rust drains) carries a copy of that entry as its
`sriov_vf` back-reference. -/
theorem c7_sriov_vf_back_reference (m : List Iface)
    (hkeys : ((sriov_vf_entries m).map Prod.fst).Nodup)
    (P : Iface) (hP : P ∈ m) (s : SriovInfo) (hs : P.sriov = some s)
    (v : VfInfo) (hv : v ∈ s.vfs) (n : String) (hn : v.iface_name = some n)
    (j : Nat) (t : Iface) (ht : m[j]? = some t) (hname : t.name = n) :
    (sriov_vf_iface_tidy_up m)[j]? = some { t with sriov_vf := some v } := by
  have hmem : (n, v) ∈ sriov_vf_entries m := by
    unfold sriov_vf_entries
    refine List.mem_flatMap.mpr ⟨P, hP, ?_⟩
    rw [hs]
    refine List.mem_filterMap.mpr ⟨v, hv, ?_⟩
    rw [hn]
    rfl
  have hfind := find_reverse_of_keys_nodup _ n v hkeys hmem
  unfold sriov_vf_iface_tidy_up
  rw [List.getElem?_map, ht]
  simp [hname, hfind]

/-- C7 witness: a concrete PF (`eth0`) whose single VF entry claims
`eth0vf0`; after the tidy pass the interface `eth0vf0` carries a copy of
that entry. -/
theorem c7_sriov_vf_back_reference_witness :
    ((sriov_vf_entries [pfIface, vfIface]).map Prod.fst).Nodup
    ∧ pfIface ∈ [pfIface, vfIface]
    ∧ pfIface.sriov = some { vfs := [vfEntry0] }
    ∧ vfEntry0 ∈ ({ vfs := [vfEntry0] } : SriovInfo).vfs
    ∧ vfEntry0.iface_name = some "eth0vf0"
    ∧ [pfIface, vfIface][1]? = some vfIface
    ∧ vfIface.name = "eth0vf0"
    ∧ (sriov_vf_iface_tidy_up [pfIface, vfIface])[1]?
        = some { vfIface with sriov_vf := some vfEntry0 } :=
  ⟨by decide, by decide, rfl, by decide, rfl, rfl, rfl,
   c7_sriov_vf_back_reference [pfIface, vfIface] (by decide) pfIface
     (by decide) { vfs := [vfEntry0] } rfl vfEntry0 (by decide) "eth0vf0"
     rfl 1 vfIface rfl rfl⟩

end Nispor
